import Mathlib

/-!
Verification of the yushulx/python-mrz-scanner-sdk repository.

The development shallowly embeds the repository's Python code:

* the classifier `check` of `src/test.py` / `src/examples/camera/app.py`
  (a cascade of five MRZ document checkers from the external `mrz` library,
  each wrapped in try/except);
* the result construction `MrzResult.__init__` and the `decode` method of
  `src/mrzscanner/__init__.py`;
* the bounded capture loop of `src/examples/camera/app.py` (ThreadPool of
  size 1 plus a deque of pending tasks);
* the frame correlation store `MyIntermediateResultReceiver` of
  `src/examples/official/mrz_scanner_gui.py`.

External collaborators (the `mrz` checker classes, the Dynamsoft capture
engine, `IdentityProcessor`) are modelled as parameters, except where a
claim needs their spec-described behaviour, in which case the definition's
doc comment says so.
-/

/-! ## Classifier (src/test.py `check`, identical in src/examples/camera/app.py
and src/examples/camera/app_async_api.py) -/

/-- The five document layouts tried by `check`, in source order. -/
inductive DocTag where
  | TD1
  | TD2
  | TD3
  | MRVA
  | MRVB
deriving DecidableEq, Repr

/-- Outcome of running one external checker on a line set:
`raised` models the constructor raising (caught by the surrounding
`except Exception: pass`); `result b f` models a constructed checker whose
truthiness is `b` and whose `fields()` value is `f`. -/
inductive CheckerOutcome (F : Type) where
  | raised : CheckerOutcome F
  | result : Bool → F → CheckerOutcome F
deriving DecidableEq

/-- The five external checker classes (TD1CodeChecker .. MRVBCodeChecker),
abstracted as functions from a line set `L` to an outcome over fields `F`. -/
structure CheckerSuite (L F : Type) where
  td1 : L → CheckerOutcome F
  td2 : L → CheckerOutcome F
  td3 : L → CheckerOutcome F
  mrva : L → CheckerOutcome F
  mrvb : L → CheckerOutcome F

def checkerFor {L F : Type} (cs : CheckerSuite L F) : DocTag → L → CheckerOutcome F
  | DocTag.TD1 => cs.td1
  | DocTag.TD2 => cs.td2
  | DocTag.TD3 => cs.td3
  | DocTag.MRVA => cs.mrva
  | DocTag.MRVB => cs.mrvb

/-- The fixed priority order in which `check` tries the checkers. -/
def checkerOrder : List DocTag :=
  [DocTag.TD1, DocTag.TD2, DocTag.TD3, DocTag.MRVA, DocTag.MRVB]

/-- The value `check` returns: a `(tag, fields)` pair on a match, or the
no-match sentinel string result. -/
inductive ClassifyResult (F : Type) where
  | matched : DocTag → F → ClassifyResult F
  | noMatch : ClassifyResult F
deriving DecidableEq

/-- The try/except cascade of `check`, instrumented with the list of
checkers actually consulted: each block constructs the checker (a raise is
caught and falls through), returns `(tag, fields)` when the checker is
truthy, and otherwise falls through to the next block. -/
def runCheckers {L F : Type} (cs : CheckerSuite L F) (lines : L) :
    List DocTag → ClassifyResult F × List DocTag
  | [] => (ClassifyResult.noMatch, [])
  | tag :: rest =>
    match checkerFor cs tag lines with
    | CheckerOutcome.raised =>
      let r := runCheckers cs lines rest
      (r.1, tag :: r.2)
    | CheckerOutcome.result b f =>
      if b then (ClassifyResult.matched tag f, [tag])
      else
        let r := runCheckers cs lines rest
        (r.1, tag :: r.2)

/-- `check(lines)` from src/test.py: run the cascade over the fixed order. -/
def check {L F : Type} (cs : CheckerSuite L F) (lines : L) : ClassifyResult F :=
  (runCheckers cs lines checkerOrder).1

/-- The checkers `check` consults, in order, before returning. -/
def consulted {L F : Type} (cs : CheckerSuite L F) (lines : L) : List DocTag :=
  (runCheckers cs lines checkerOrder).2

/-- Whether the checker for `tag` matches (constructs without raising and is
truthy) on `lines`. -/
def tagMatches {L F : Type} (cs : CheckerSuite L F) (lines : L) (tag : DocTag) : Bool :=
  match checkerFor cs tag lines with
  | CheckerOutcome.result true _ => true
  | _ => false

/-- Spec-side classifier, written from the spec's words: return the result
of the first checker in the priority order that matches, and the no-match
result when every checker rejects. -/
def checkSpec {L F : Type} (cs : CheckerSuite L F) (lines : L) : ClassifyResult F :=
  match List.find? (tagMatches cs lines) checkerOrder with
  | some tag =>
    match checkerFor cs tag lines with
    | CheckerOutcome.result true f => ClassifyResult.matched tag f
    | _ => ClassifyResult.noMatch
  | none => ClassifyResult.noMatch

/-- Spec-side consultation trace: all checkers up to and including the first
match, and the whole order when none matches. -/
def consultedSpec {L F : Type} (cs : CheckerSuite L F) (lines : L) : List DocTag :=
  List.takeWhile (fun t => !tagMatches cs lines t) checkerOrder ++
    List.take 1 (List.dropWhile (fun t => !tagMatches cs lines t) checkerOrder)

theorem runCheckers_spec {L F : Type} (cs : CheckerSuite L F) (lines : L)
    (l : List DocTag) :
    runCheckers cs lines l =
      ((match List.find? (tagMatches cs lines) l with
        | some tag =>
          match checkerFor cs tag lines with
          | CheckerOutcome.result true f => ClassifyResult.matched tag f
          | _ => ClassifyResult.noMatch
        | none => ClassifyResult.noMatch),
       List.takeWhile (fun t => !tagMatches cs lines t) l ++
         List.take 1 (List.dropWhile (fun t => !tagMatches cs lines t) l)) := by
  induction l with
  | nil => simp [runCheckers]
  | cons tag rest ih =>
    have hm : tagMatches cs lines tag =
        (match checkerFor cs tag lines with
         | CheckerOutcome.result true _ => true
         | _ => false) := rfl
    cases h : checkerFor cs tag lines with
    | raised =>
      have hmf : tagMatches cs lines tag = false := by rw [hm, h]
      simp [runCheckers, h, ih, List.find?, hmf, List.takeWhile_cons, List.dropWhile_cons]
    | result b f =>
      cases b with
      | true =>
        have hmt : tagMatches cs lines tag = true := by rw [hm, h]
        simp [runCheckers, h, List.find?, hmt, List.takeWhile_cons, List.dropWhile_cons]
      | false =>
        have hmf : tagMatches cs lines tag = false := by rw [hm, h]
        simp [runCheckers, h, ih, List.find?, hmf, List.takeWhile_cons, List.dropWhile_cons]

/-- A concrete checker suite over unit line sets and string fields: TD1
raises, TD2 is constructed but falsy, TD3 matches, MRVA and MRVB match
(but are after TD3 in the order). -/
def csW : CheckerSuite Unit String :=
  { td1 := fun _ => CheckerOutcome.raised
    td2 := fun _ => CheckerOutcome.result false "td2-fields"
    td3 := fun _ => CheckerOutcome.result true "td3-fields"
    mrva := fun _ => CheckerOutcome.result true "mrva-fields"
    mrvb := fun _ => CheckerOutcome.result true "mrvb-fields" }


theorem checkSpec_matched_of_find {L F : Type} (cs : CheckerSuite L F) (lines : L)
    (tag : DocTag)
    (hfind : List.find? (tagMatches cs lines) checkerOrder = some tag) :
    ∃ f, checkerFor cs tag lines = CheckerOutcome.result true f ∧
      checkSpec cs lines = ClassifyResult.matched tag f := by
  have hmt : tagMatches cs lines tag = true := List.find?_some hfind
  unfold tagMatches at hmt
  cases h : checkerFor cs tag lines with
  | raised => rw [h] at hmt; simp at hmt
  | result b f =>
    cases b with
    | false => rw [h] at hmt; simp at hmt
    | true => exact ⟨f, rfl, by simp [checkSpec, hfind, h]⟩

theorem checkSpec_noMatch_iff {L F : Type} (cs : CheckerSuite L F) (lines : L) :
    checkSpec cs lines = ClassifyResult.noMatch ↔
      ∀ tag ∈ checkerOrder, tagMatches cs lines tag = false := by
  cases hfind : List.find? (tagMatches cs lines) checkerOrder with
  | none =>
    simp only [checkSpec, hfind]
    rw [List.find?_eq_none] at hfind
    constructor
    · intro _ tag htag
      simpa using hfind tag htag
    · intro _
      trivial
  | some tag =>
    obtain ⟨f, _, hspec⟩ := checkSpec_matched_of_find cs lines tag hfind
    rw [hspec]
    constructor
    · intro hcontra
      exact absurd hcontra (by simp)
    · intro hall
      have hmt : tagMatches cs lines tag = true := List.find?_some hfind
      have := hall tag (List.mem_of_find?_eq_some hfind)
      rw [this] at hmt
      exact absurd hmt (by simp)

/-- C1: the classifier tries the document checkers in the fixed priority
order TD1, TD2, TD3, MRVA, MRVB, returns the result of the first checker
that matches (type tag plus field map), returns the no-match result exactly
when every checker rejects, and once some checker matches consults no later
checker (the consultation trace stops at the first match). -/
theorem check_first_match_in_priority_order {L F : Type}
    (cs : CheckerSuite L F) (lines : L) :
    check cs lines = checkSpec cs lines ∧
    consulted cs lines = consultedSpec cs lines ∧
    (check cs lines = ClassifyResult.noMatch ↔
      ∀ tag ∈ checkerOrder, tagMatches cs lines tag = false) := by
  have h1 : check cs lines = checkSpec cs lines := by
    show (runCheckers cs lines checkerOrder).1 = checkSpec cs lines
    rw [runCheckers_spec]
    rfl
  have h2 : consulted cs lines = consultedSpec cs lines := by
    show (runCheckers cs lines checkerOrder).2 = consultedSpec cs lines
    rw [runCheckers_spec]
    rfl
  exact ⟨h1, h2, h1 ▸ checkSpec_noMatch_iff cs lines⟩

/-- Evaluation of C1's theorem on the concrete suite `csW`: TD3 is the
first matching checker, and MRVA/MRVB are never consulted despite also
matching. -/
theorem check_first_match_in_priority_order_eval :
    check csW () = ClassifyResult.matched DocTag.TD3 "td3-fields" ∧
    consulted csW () = [DocTag.TD1, DocTag.TD2, DocTag.TD3] := by
  have h := check_first_match_in_priority_order csW ()
  exact ⟨h.1.trans (by decide), h.2.1.trans (by decide)⟩

/-- Replace the checker class used for one document layout, leaving the
other four unchanged. -/
def setChecker {L F : Type} (cs : CheckerSuite L F) :
    DocTag → (L → CheckerOutcome F) → CheckerSuite L F
  | DocTag.TD1, c => { cs with td1 := c }
  | DocTag.TD2, c => { cs with td2 := c }
  | DocTag.TD3, c => { cs with td3 := c }
  | DocTag.MRVA, c => { cs with mrva := c }
  | DocTag.MRVB, c => { cs with mrvb := c }

theorem checkerFor_setChecker_same {L F : Type} (cs : CheckerSuite L F)
    (tag : DocTag) (c : L → CheckerOutcome F) :
    checkerFor (setChecker cs tag c) tag = c := by
  cases tag <;> rfl

theorem checkerFor_setChecker_other {L F : Type} (cs : CheckerSuite L F)
    (tag t : DocTag) (c : L → CheckerOutcome F) (h : t ≠ tag) :
    checkerFor (setChecker cs tag c) t = checkerFor cs t := by
  cases tag <;> cases t <;> simp_all [setChecker, checkerFor]

theorem runCheckers_raised_as_reject {L F : Type} (cs : CheckerSuite L F)
    (lines : L) (tag : DocTag) (freject : F)
    (hraise : checkerFor cs tag lines = CheckerOutcome.raised)
    (l : List DocTag) :
    runCheckers (setChecker cs tag (fun _ => CheckerOutcome.result false freject))
      lines l = runCheckers cs lines l := by
  induction l with
  | nil => rfl
  | cons t rest ih =>
    by_cases ht : t = tag
    · subst ht
      have h1 : checkerFor
          (setChecker cs t (fun _ => CheckerOutcome.result false freject)) t lines =
          CheckerOutcome.result false freject := by
        rw [checkerFor_setChecker_same]
      simp [runCheckers, h1, hraise, ih]
    · have h1 : checkerFor
          (setChecker cs tag (fun _ => CheckerOutcome.result false freject)) t lines =
          checkerFor cs t lines := by
        rw [checkerFor_setChecker_other cs tag t _ ht]
      simp only [runCheckers, h1, ih]

/-- C2: the classifier never propagates a checker exception. A checker that
raises is caught and treated exactly as a rejection: the classification is
the same as with that checker replaced by one that rejects, the cascade
records the raising checker as tried and takes its result from the next
checkers in the priority order, and when every checker raises or rejects
the classifier returns the normal no-match result rather than an error
(the embedded cascade's codomain has no error case at all). -/
theorem check_never_propagates_exception {L F : Type}
    (cs : CheckerSuite L F) (lines : L) (freject : F) :
    (∀ tag, checkerFor cs tag lines = CheckerOutcome.raised →
      check cs lines =
        check (setChecker cs tag (fun _ => CheckerOutcome.result false freject))
          lines) ∧
    (∀ tag rest, checkerFor cs tag lines = CheckerOutcome.raised →
      runCheckers cs lines (tag :: rest) =
        ((runCheckers cs lines rest).1, tag :: (runCheckers cs lines rest).2)) ∧
    ((∀ tag ∈ checkerOrder, checkerFor cs tag lines = CheckerOutcome.raised ∨
        ∃ f, checkerFor cs tag lines = CheckerOutcome.result false f) →
      check cs lines = ClassifyResult.noMatch) := by
  refine ⟨?_, ?_, ?_⟩
  · intro tag h
    show (runCheckers cs lines checkerOrder).1 = _
    rw [show check (setChecker cs tag (fun _ => CheckerOutcome.result false freject))
        lines =
        (runCheckers (setChecker cs tag (fun _ => CheckerOutcome.result false freject))
          lines checkerOrder).1 from rfl,
      runCheckers_raised_as_reject cs lines tag freject h checkerOrder]
  · intro tag rest h
    simp [runCheckers, h]
  · intro hall
    have hnone : ∀ tag ∈ checkerOrder, tagMatches cs lines tag = false := by
      intro tag htag
      unfold tagMatches
      rcases hall tag htag with h | ⟨f, h⟩ <;> rw [h]
    have h1 : check cs lines = checkSpec cs lines := by
      show (runCheckers cs lines checkerOrder).1 = checkSpec cs lines
      rw [runCheckers_spec]
      rfl
    rw [h1, checkSpec_noMatch_iff]
    exact hnone

/-- A suite in which every checker raises. -/
def csRaise : CheckerSuite Unit String :=
  { td1 := fun _ => CheckerOutcome.raised
    td2 := fun _ => CheckerOutcome.raised
    td3 := fun _ => CheckerOutcome.raised
    mrva := fun _ => CheckerOutcome.raised
    mrvb := fun _ => CheckerOutcome.raised }

/-- Evaluation of C2's theorem: a raising TD1 checker gives the same
classification as a rejecting TD1 checker, and when every checker raises,
`check` still returns the no-match result instead of an error. -/
theorem check_never_propagates_exception_eval :
    check csRaise () =
      check (setChecker csRaise DocTag.TD1
        (fun _ => CheckerOutcome.result false "no match")) () ∧
    check csRaise () = ClassifyResult.noMatch := by
  have h := check_never_propagates_exception csRaise () "no match"
  exact ⟨h.1 DocTag.TD1 rfl,
    h.2.2 (fun tag _ => Or.inl (by cases tag <;> rfl))⟩

/-! ## MrzResult construction and decode (src/mrzscanner/__init__.py) -/

/-- The SDK's validation status for one parsed field
(EnumValidationStatus); the code only ever compares against VS_FAILED. -/
inductive EnumValidationStatus where
  | VS_NONE
  | VS_SUCCEEDED
  | VS_FAILED
deriving DecidableEq, Repr

/-- A parsed result item from the SDK: `get_code_type()`,
`get_field_value(name)` (None when the field is absent) and
`get_field_validation_status(name)`. -/
structure ParsedResultItem where
  codeType : String
  fieldValue : String → Option String
  fieldStatus : String → EnumValidationStatus

/-- A point of a quadrilateral location. -/
structure MrzPoint where
  x : Int
  y : Int
deriving DecidableEq, Repr

/-- The MRZ location quadrilateral: `location.points[0] .. points[3]`. -/
structure Quadrilateral where
  p0 : MrzPoint
  p1 : MrzPoint
  p2 : MrzPoint
  p3 : MrzPoint
deriving DecidableEq, Repr

/-- The fields of an `MrzResult` (src/mrzscanner/__init__.py lines 164-237):
corner coordinates, document type, raw text lines and parsed fields, each
parsed field `None` when absent or failed. -/
structure MrzResult where
  x1 : Int
  y1 : Int
  x2 : Int
  y2 : Int
  x3 : Int
  y3 : Int
  x4 : Int
  y4 : Int
  doc_type : String
  raw_text : List String
  doc_id : Option String
  surname : Option String
  given_name : Option String
  nationality : Option String
  issuer : Option String
  gender : Option String
  date_of_birth : Option String
  date_of_expiry : Option String
deriving DecidableEq, Repr

/-- One `lineN` entry of `raw_text`: skipped when absent, suffixed with
", Validation Failed" when the line's validation status is VS_FAILED. -/
def lineText (item : ParsedResultItem) (name : String) : Option String :=
  match item.fieldValue name with
  | none => none
  | some line =>
    if item.fieldStatus name = EnumValidationStatus.VS_FAILED then
      some (line ++ ", Validation Failed")
    else
      some line

/-- One optional parsed field of `MrzResult.__init__`: the pattern
`if item.get_field_value(name) != None and
item.get_field_validation_status(name) != VS_FAILED: self.f = value`,
with the field left at its initial None otherwise. -/
def parsedField (item : ParsedResultItem) (name : String) : Option String :=
  match item.fieldValue name with
  | some v =>
    if item.fieldStatus name ≠ EnumValidationStatus.VS_FAILED then some v else none
  | none => none

/-- The `doc_id` logic of `MrzResult.__init__`: only for code type
"MRTD_TD3_PASSPORT", preferring a present non-failed passportNumber and
falling back to a present non-failed documentNumber. -/
def docIdOf (item : ParsedResultItem) : Option String :=
  if item.codeType = "MRTD_TD3_PASSPORT" then
    match parsedField item "passportNumber" with
    | some v => some v
    | none => parsedField item "documentNumber"
  else none

/-- `MrzResult.__init__(item, location)` from src/mrzscanner/__init__.py. -/
def MrzResult.build (item : ParsedResultItem) (location : Quadrilateral) : MrzResult :=
  { x1 := location.p0.x
    y1 := location.p0.y
    x2 := location.p1.x
    y2 := location.p1.y
    x3 := location.p2.x
    y3 := location.p2.y
    x4 := location.p3.x
    y4 := location.p3.y
    doc_type := item.codeType
    raw_text := List.filterMap (lineText item) ["line1", "line2", "line3"]
    doc_id := docIdOf item
    surname := parsedField item "primaryIdentifier"
    given_name := parsedField item "secondaryIdentifier"
    nationality := parsedField item "nationality"
    issuer := parsedField item "issuingState"
    gender := parsedField item "sex"
    date_of_birth := parsedField item "dateOfBirth"
    date_of_expiry := parsedField item "dateOfExpiry" }

theorem parsedField_failed {item : ParsedResultItem} {name : String}
    (h : item.fieldStatus name = EnumValidationStatus.VS_FAILED) :
    parsedField item name = none := by
  unfold parsedField
  cases hv : item.fieldValue name with
  | none => rfl
  | some v => simp [h]

/-- The zero quadrilateral, used for concrete evaluations. -/
def quad0 : Quadrilateral :=
  { p0 := { x := 0, y := 0 }, p1 := { x := 0, y := 0 }
    p2 := { x := 0, y := 0 }, p3 := { x := 0, y := 0 } }

/-- A parsed item whose only field is a nationality value "UTO" with
validation status VS_FAILED. -/
def itemFailedNat : ParsedResultItem :=
  { codeType := "MRTD_TD1_ID"
    fieldValue := fun name => if name = "nationality" then some "UTO" else none
    fieldStatus := fun name =>
      if name = "nationality" then EnumValidationStatus.VS_FAILED
      else EnumValidationStatus.VS_NONE }

/-- C3 counterexample: the item carries nationality "UTO" with FAILED
status, yet the constructed result drops it entirely — its `nationality`
field is None and the value appears in no other field of the result. -/
theorem mrz_failed_field_dropped_cex :
    itemFailedNat.fieldValue "nationality" = some "UTO" ∧
    itemFailedNat.fieldStatus "nationality" = EnumValidationStatus.VS_FAILED ∧
    MrzResult.build itemFailedNat quad0 =
      { x1 := 0, y1 := 0, x2 := 0, y2 := 0, x3 := 0, y3 := 0, x4 := 0, y4 := 0
        doc_type := "MRTD_TD1_ID", raw_text := [], doc_id := none, surname := none
        given_name := none, nationality := none, issuer := none, gender := none
        date_of_birth := none, date_of_expiry := none } := by
  refine ⟨rfl, rfl, ?_⟩
  decide

theorem docIdOf_both_failed {item : ParsedResultItem}
    (hp : item.fieldStatus "passportNumber" = EnumValidationStatus.VS_FAILED)
    (hd : item.fieldStatus "documentNumber" = EnumValidationStatus.VS_FAILED) :
    docIdOf item = none := by
  unfold docIdOf
  by_cases hc : item.codeType = "MRTD_TD3_PASSPORT" <;>
    simp [hc, parsedField_failed hp, parsedField_failed hd]

/-- C3 amended: a `lineN` field with FAILED status still surfaces its raw
value in `raw_text` (suffixed with ", Validation Failed"), while each of
the seven named parsed fields with FAILED status is set to None in the
constructed result (its value is not surfaced through that field), and
`doc_id` surfaces no raw value from a FAILED source either: it is None
whenever both of its source fields, passportNumber and documentNumber,
have FAILED status. -/
theorem mrz_failed_line_surfaced_named_dropped
    (item : ParsedResultItem) (loc : Quadrilateral) (name s : String)
    (hname : name = "line1" ∨ name = "line2" ∨ name = "line3")
    (hval : item.fieldValue name = some s)
    (hst : item.fieldStatus name = EnumValidationStatus.VS_FAILED) :
    (s ++ ", Validation Failed") ∈ (MrzResult.build item loc).raw_text ∧
    ((item.fieldStatus "nationality" = EnumValidationStatus.VS_FAILED →
        (MrzResult.build item loc).nationality = none) ∧
      (item.fieldStatus "issuingState" = EnumValidationStatus.VS_FAILED →
        (MrzResult.build item loc).issuer = none) ∧
      (item.fieldStatus "dateOfBirth" = EnumValidationStatus.VS_FAILED →
        (MrzResult.build item loc).date_of_birth = none) ∧
      (item.fieldStatus "dateOfExpiry" = EnumValidationStatus.VS_FAILED →
        (MrzResult.build item loc).date_of_expiry = none) ∧
      (item.fieldStatus "sex" = EnumValidationStatus.VS_FAILED →
        (MrzResult.build item loc).gender = none) ∧
      (item.fieldStatus "primaryIdentifier" = EnumValidationStatus.VS_FAILED →
        (MrzResult.build item loc).surname = none) ∧
      (item.fieldStatus "secondaryIdentifier" = EnumValidationStatus.VS_FAILED →
        (MrzResult.build item loc).given_name = none) ∧
      (item.fieldStatus "passportNumber" = EnumValidationStatus.VS_FAILED →
        item.fieldStatus "documentNumber" = EnumValidationStatus.VS_FAILED →
        (MrzResult.build item loc).doc_id = none)) := by
  constructor
  · have hlt : lineText item name = some (s ++ ", Validation Failed") := by
      unfold lineText
      rw [hval]
      simp [hst]
    refine List.mem_filterMap.2 ⟨name, ?_, hlt⟩
    rcases hname with h | h | h <;> simp [h]
  · exact ⟨fun h => parsedField_failed h, fun h => parsedField_failed h,
      fun h => parsedField_failed h, fun h => parsedField_failed h,
      fun h => parsedField_failed h, fun h => parsedField_failed h,
      fun h => parsedField_failed h,
      fun hp hd => docIdOf_both_failed hp hd⟩

/-- A parsed item with a failed line2, a failed nationality, and failed
passportNumber/documentNumber fields. -/
def itemFailedLine : ParsedResultItem :=
  { codeType := "MRTD_TD3_PASSPORT"
    fieldValue := fun name =>
      if name = "line2" then some "L898902C36UTO"
      else if name = "nationality" then some "UTO"
      else if name = "passportNumber" then some "L898902C3"
      else if name = "documentNumber" then some "D23145890" else none
    fieldStatus := fun name =>
      if name = "line2" then EnumValidationStatus.VS_FAILED
      else if name = "nationality" then EnumValidationStatus.VS_FAILED
      else if name = "passportNumber" then EnumValidationStatus.VS_FAILED
      else if name = "documentNumber" then EnumValidationStatus.VS_FAILED
      else EnumValidationStatus.VS_NONE }

/-- Evaluation of C3's amended theorem at a concrete item: the failed line2
value is surfaced (with the failure marker) while the failed nationality
field is None and doc_id, with both of its sources failed, is None. -/
theorem mrz_failed_line_surfaced_named_dropped_witness :
    ("L898902C36UTO" ++ ", Validation Failed") ∈
      (MrzResult.build itemFailedLine quad0).raw_text ∧
    (MrzResult.build itemFailedLine quad0).nationality = none ∧
    (MrzResult.build itemFailedLine quad0).doc_id = none := by
  have h := mrz_failed_line_surfaced_named_dropped itemFailedLine quad0
    "line2" "L898902C36UTO" (Or.inr (Or.inl rfl)) (by decide) (by decide)
  exact ⟨h.1, h.2.1 (by decide),
    h.2.2.2.2.2.2.2.2 (by decide) (by decide)⟩

/-- C9: the constructed result's doc_id is populated only when the item's
code type is exactly "MRTD_TD3_PASSPORT"; for every other document type it
remains None, even if the item carries a passportNumber or documentNumber
field. -/
theorem doc_id_only_for_td3_passport (item : ParsedResultItem) (loc : Quadrilateral)
    (h : item.codeType ≠ "MRTD_TD3_PASSPORT") :
    (MrzResult.build item loc).doc_id = none := by
  show docIdOf item = none
  unfold docIdOf
  simp [h]

/-- A TD1 item that nevertheless carries valid passportNumber and
documentNumber fields. -/
def itemTd1WithPassport : ParsedResultItem :=
  { codeType := "MRTD_TD1_ID"
    fieldValue := fun name =>
      if name = "passportNumber" then some "L898902C3"
      else if name = "documentNumber" then some "D23145890" else none
    fieldStatus := fun _ => EnumValidationStatus.VS_SUCCEEDED }

/-- Evaluation of C9's theorem: a TD1 item with a valid passportNumber
still yields doc_id = None. -/
theorem doc_id_only_for_td3_passport_witness :
    itemTd1WithPassport.fieldValue "passportNumber" = some "L898902C3" ∧
    (MrzResult.build itemTd1WithPassport quad0).doc_id = none :=
  ⟨by decide, doc_id_only_for_td3_passport itemTd1WithPassport quad0 (by decide)⟩

/-- A recognized text line item: raw text plus its quadrilateral location
(`items[i].get_location()`). -/
structure TextLineItem where
  text : String
  location : Quadrilateral
deriving DecidableEq, Repr

/-- `EnumErrorCode.EC_OK`. -/
def EC_OK : Int := 0

/-- The result of `self.cvr_instance.capture(input, 'ReadPassportAndId')`:
an error code, the recognized-text-lines result (None or its items) and
the parsed result (None or its items). -/
structure CapturedResult where
  errorCode : Int
  recognizedItems : Option (List TextLineItem)
  parsedItems : Option (List ParsedResultItem)

/-- `items` in `decode`: the recognized line items, `[]` when the
recognized-text-lines result is None. -/
def itemsOf (result : CapturedResult) : List TextLineItem :=
  match result.recognizedItems with
  | some l => l
  | none => []

/-- `parsed_items` in `decode`: the parsed items, `[]` when the parsed
result is None. -/
def parsedItemsOf (result : CapturedResult) : List ParsedResultItem :=
  match result.parsedItems with
  | some l => l
  | none => []

/-- The loop `for i in range(len(items)): output.append(MrzResult(
parsed_items[i], items[i].get_location()))`; indexing `parsed_items[i]`
past its end raises IndexError, modelled as `Except.error`. -/
def decodeLoop : List TextLineItem → List ParsedResultItem →
    Except String (List MrzResult)
  | [], _ => Except.ok []
  | _ :: _, [] => Except.error "IndexError"
  | it :: its, p :: ps =>
    match decodeLoop its ps with
    | Except.ok rest => Except.ok (MrzResult.build p it.location :: rest)
    | Except.error e => Except.error e

/-- `MrzScanner.decode` (src/mrzscanner/__init__.py lines 436-459), given
the capture call's result: on a non-OK error code it only prints the error
code and string and leaves `output` empty; otherwise it builds one
`MrzResult` per recognized line item. -/
def decode (result : CapturedResult) : Except String (List MrzResult) :=
  if result.errorCode ≠ EC_OK then Except.ok []
  else decodeLoop (itemsOf result) (parsedItemsOf result)

theorem decodeLoop_length (items : List TextLineItem) :
    ∀ parsed : List ParsedResultItem, items.length ≤ parsed.length →
      ∃ l, decodeLoop items parsed = Except.ok l ∧ l.length = items.length := by
  induction items with
  | nil => intro parsed _; exact ⟨[], rfl, rfl⟩
  | cons it its ih =>
    intro parsed hlen
    cases parsed with
    | nil => simp at hlen
    | cons p ps =>
      obtain ⟨l, hl, hlen2⟩ := ih ps (by simpa using hlen)
      refine ⟨MrzResult.build p it.location :: l, ?_, by simp [hlen2]⟩
      simp [decodeLoop, hl]

theorem decodeLoop_mismatch (items : List TextLineItem) :
    ∀ parsed : List ParsedResultItem, parsed.length < items.length →
      decodeLoop items parsed = Except.error "IndexError" := by
  induction items with
  | nil => intro parsed hlen; simp at hlen
  | cons it its ih =>
    intro parsed hlen
    cases parsed with
    | nil => rfl
    | cons p ps =>
      have := ih ps (by simpa using hlen)
      simp [decodeLoop, this]

/-- A successful capture whose line result has an item but whose parsed
result is None (`get_parsed_result()` returned nothing). -/
def capMismatch : CapturedResult :=
  { errorCode := 0
    recognizedItems := some [{ text := "P<UTO", location := quad0 }]
    parsedItems := none }

/-- C10 counterexample: on an EC_OK capture with one recognized line item
but no parsed result, `decode` does not return a list at all: indexing
`parsed_items[i]` raises IndexError, refuting the claim that for every
input the returned list has one result per line item of a successful
capture. -/
theorem decode_mismatch_raises_cex :
    capMismatch.errorCode = EC_OK ∧
    (itemsOf capMismatch).length = 1 ∧
    decode capMismatch = Except.error "IndexError" :=
  ⟨rfl, rfl, rfl⟩

/-- C10 amended: when the capture call reports a non-OK error code,
`decode` returns an empty list without raising (the error branch only
prints); on an EC_OK capture it returns exactly one result per recognized
text-line item when the parsed result supplies at least as many items as
the line result, and raises IndexError at `parsed_items[i]` when the
parsed result supplies fewer. -/
theorem decode_error_yields_empty (result : CapturedResult) :
    (result.errorCode ≠ EC_OK → decode result = Except.ok []) ∧
    (result.errorCode = EC_OK →
      (itemsOf result).length ≤ (parsedItemsOf result).length →
      ∃ l, decode result = Except.ok l ∧ l.length = (itemsOf result).length) ∧
    (result.errorCode = EC_OK →
      (parsedItemsOf result).length < (itemsOf result).length →
      decode result = Except.error "IndexError") := by
  refine ⟨?_, ?_, ?_⟩
  · intro h
    simp [decode, h]
  · intro h hlen
    have : decode result = decodeLoop (itemsOf result) (parsedItemsOf result) := by
      simp [decode, h]
    rw [this]
    exact decodeLoop_length (itemsOf result) (parsedItemsOf result) hlen
  · intro h hlen
    have : decode result = decodeLoop (itemsOf result) (parsedItemsOf result) := by
      simp [decode, h]
    rw [this]
    exact decodeLoop_mismatch (itemsOf result) (parsedItemsOf result) hlen

/-- A failed capture that nevertheless carries a recognized line item. -/
def capFailed : CapturedResult :=
  { errorCode := -10061
    recognizedItems := some [{ text := "P<UTO", location := quad0 }]
    parsedItems := some [itemTd1WithPassport] }

/-- A successful capture with one recognized line item and one parsed item. -/
def capOk : CapturedResult :=
  { errorCode := 0
    recognizedItems := some [{ text := "P<UTO", location := quad0 }]
    parsedItems := some [itemTd1WithPassport] }

/-- Evaluation of C10's amended theorem: the failed capture yields an
empty list even though line items were present, the successful paired
capture yields exactly one result, and the successful unpaired capture
raises IndexError. -/
theorem decode_error_yields_empty_witness :
    decode capFailed = Except.ok [] ∧
    (∃ l, decode capOk = Except.ok l ∧ l.length = 1) ∧
    decode capMismatch = Except.error "IndexError" :=
  ⟨(decode_error_yields_empty capFailed).1 (by decide),
    (decode_error_yields_empty capOk).2.1 rfl (by decide),
    (decode_error_yields_empty capMismatch).2.2 rfl (by decide)⟩

/-! ## Bounded capture pipeline (src/examples/camera/app.py lines 55-62 and
89-121) -/

/-- An async task in the `mrzTasks` deque: whether `task.ready()` is true,
and what `task.get()` returns (None models a frame whose recognizer call
raised inside `process_frame`). -/
structure MrzTask (R : Type) where
  ready : Bool
  result : Option R
deriving DecidableEq, Repr

/-- The observable state of the capture loop: the pending-task deque plus
counters for frames submitted to the pool, frames dropped because no slot
was free, and the drained non-None results handed to drawing and `check`. -/
structure PipelineState (R : Type) where
  mrzTasks : List (MrzTask R)
  submitted : Nat
  dropped : Nat
  processed : List R
deriving DecidableEq, Repr

/-- `threadn = 1` in src/examples/camera/app.py line 89. -/
def threadn : Nat := 1

/-- The initial state: empty deque, nothing submitted, dropped or drained. -/
def initState (R : Type) : PipelineState R :=
  { mrzTasks := [], submitted := 0, dropped := 0, processed := [] }

/-- `process_frame(frame)`: `results` starts as None, the recognizer call
either sets it or raises, a raise is caught and printed; the function
returns the printed error (if any) and `results`. -/
def process_frame {E R : Type} (call : Except E R) : Option E × Option R :=
  match call with
  | Except.ok results => (none, some results)
  | Except.error err => (some err, none)

/-- The inner `while len(mrzTasks) > 0 and mrzTasks[0].ready():` drain loop:
pop ready tasks off the front, collecting each non-None `get()` result. -/
def drainReady {R : Type} : List (MrzTask R) → List (MrzTask R) × List R
  | [] => ([], [])
  | t :: rest =>
    if t.ready then
      let d := drainReady rest
      match t.result with
      | some r => (d.1, r :: d.2)
      | none => d
    else (t :: rest, [])

/-- One iteration of the `while True:` capture loop for one captured frame:
drain ready tasks, then submit the frame only when `len(mrzTasks) < threadn`
(otherwise the frame is dropped). -/
def loopIter {R : Type} (bound : Nat) (st : PipelineState R) (newTask : MrzTask R) :
    PipelineState R :=
  if (drainReady st.mrzTasks).1.length < bound then
    { mrzTasks := (drainReady st.mrzTasks).1 ++ [newTask]
      submitted := st.submitted + 1
      dropped := st.dropped
      processed := st.processed ++ (drainReady st.mrzTasks).2 }
  else
    { mrzTasks := (drainReady st.mrzTasks).1
      submitted := st.submitted
      dropped := st.dropped + 1
      processed := st.processed ++ (drainReady st.mrzTasks).2 }

/-- Run the capture loop over a list of captured frames (each given as the
task the pool would return for it). -/
def runLoop {R : Type} (bound : Nat) (st : PipelineState R) :
    List (MrzTask R) → PipelineState R
  | [] => st
  | t :: ts => runLoop bound (loopIter bound st t) ts

theorem drainReady_length_le {R : Type} (tasks : List (MrzTask R)) :
    (drainReady tasks).1.length ≤ tasks.length := by
  induction tasks with
  | nil => simp [drainReady]
  | cons t rest ih =>
    unfold drainReady
    by_cases h : t.ready
    · simp only [h, if_true]
      cases t.result with
      | some r => simpa using Nat.le_succ_of_le ih
      | none => exact Nat.le_succ_of_le ih
    · simp [h]

theorem drainReady_not_ready {R : Type} (t : MrzTask R) (rest : List (MrzTask R))
    (h : t.ready = false) : drainReady (t :: rest) = (t :: rest, []) := by
  simp [drainReady, h]

theorem runLoop_saturated {R : Type} (t0 : MrzTask R) (h0 : t0.ready = false)
    (frames : List (MrzTask R)) (s d : Nat) (p : List R) :
    runLoop threadn { mrzTasks := [t0], submitted := s, dropped := d, processed := p }
      frames =
      { mrzTasks := [t0], submitted := s, dropped := d + frames.length,
        processed := p } := by
  induction frames generalizing d with
  | nil => simp [runLoop]
  | cons f fs ih =>
    have hiter : loopIter threadn
        { mrzTasks := [t0], submitted := s, dropped := d, processed := p } f =
        { mrzTasks := [t0], submitted := s, dropped := d + 1, processed := p } := by
      simp [loopIter, drainReady, h0, threadn]
    simp only [runLoop]
    rw [hiter, ih]
    simp only [List.length_cons, PipelineState.mk.injEq, and_true, true_and]
    omega

/-- C4: the capture loop never holds more pending tasks than the bound
`threadn` (an iteration preserves `len(mrzTasks) ≤ threadn`), and when the
recognizer never completes, running the loop on N ≥ 1 captured frames
submits exactly 1 frame and drops the other N−1, with the deque holding
exactly one pending task rather than a growing queue. -/
theorem pipeline_bounded_in_flight {R : Type} (st : PipelineState R)
    (t : MrzTask R) (frames : List (MrzTask R))
    (hst : st.mrzTasks.length ≤ threadn)
    (hframes : ∀ f ∈ frames, f.ready = false)
    (hne : frames ≠ []) :
    (loopIter threadn st t).mrzTasks.length ≤ threadn ∧
    (runLoop threadn (initState R) frames).submitted = 1 ∧
    (runLoop threadn (initState R) frames).dropped = frames.length - 1 ∧
    (runLoop threadn (initState R) frames).mrzTasks.length = 1 := by
  constructor
  · unfold loopIter
    by_cases h : (drainReady st.mrzTasks).1.length < threadn
    · rw [if_pos h]
      simp only [List.length_append, List.length_cons, List.length_nil]
      omega
    · rw [if_neg h]
      exact le_trans (drainReady_length_le st.mrzTasks) hst
  · cases frames with
    | nil => exact absurd rfl hne
    | cons f fs =>
      have hf : f.ready = false := hframes f (by simp)
      have hfirst : loopIter threadn (initState R) f =
          { mrzTasks := [f], submitted := 1, dropped := 0, processed := [] } := by
        simp [loopIter, initState, drainReady, threadn]
      have hrun : runLoop threadn (initState R) (f :: fs) =
          { mrzTasks := [f], submitted := 1, dropped := fs.length,
            processed := [] } := by
        simp only [runLoop]
        rw [hfirst, runLoop_saturated f hf fs 1 0 []]
        simp
      rw [hrun]
      simp

/-- Three frames whose recognizer tasks never complete. -/
def framesW : List (MrzTask Unit) :=
  [{ ready := false, result := none }, { ready := false, result := none },
    { ready := false, result := none }]

/-- Evaluation of C4's theorem: submitting 3 frames while the recognizer
never completes yields exactly 1 submitted frame, 2 dropped frames, and a
single pending task. -/
theorem pipeline_bounded_in_flight_witness :
    (runLoop threadn (initState Unit) framesW).submitted = 1 ∧
    (runLoop threadn (initState Unit) framesW).dropped = 2 ∧
    (runLoop threadn (initState Unit) framesW).mrzTasks.length = 1 := by
  have h := pipeline_bounded_in_flight (initState Unit)
    { ready := false, result := none } framesW (by decide) (by decide) (by decide)
  exact ⟨h.2.1, h.2.2.1.trans (by decide), h.2.2.2⟩

/-- C7: a recognizer error on a submitted frame is surfaced (printed) by
`process_frame`, which returns None for that frame; the drain step then
discards the None result without adding anything to the processed results,
and the loop goes on: with the failed frame's task drained, the slot is
free again and the next captured frame is submitted. -/
theorem recognizer_failure_not_fatal {E R : Type} (err : E)
    (st : PipelineState R) (t : MrzTask R)
    (hst : st.mrzTasks = [{ ready := true, result := none }]) :
    process_frame (Except.error err : Except E R) = (some err, none) ∧
    loopIter threadn st t =
      { mrzTasks := [t], submitted := st.submitted + 1, dropped := st.dropped,
        processed := st.processed } := by
  refine ⟨rfl, ?_⟩
  simp [loopIter, hst, drainReady, threadn]

/-- Evaluation of C7's theorem: after a frame whose recognizer call failed,
the next frame is submitted and no result is processed. -/
theorem recognizer_failure_not_fatal_witness :
    process_frame (Except.error "engine error" : Except String Unit) =
      (some "engine error", none) ∧
    loopIter threadn
      { mrzTasks := [{ ready := true, result := none }], submitted := 3,
        dropped := 2, processed := [] }
      { ready := false, result := (none : Option Unit) } =
      { mrzTasks := [{ ready := false, result := none }], submitted := 4,
        dropped := 2, processed := [] } :=
  recognizer_failure_not_fatal "engine error"
    { mrzTasks := [{ ready := true, result := none }], submitted := 3,
      dropped := 2, processed := [] }
    { ready := false, result := none } rfl

/-! ## Frame correlation store
(src/examples/official/mrz_scanner_gui.py, MyIntermediateResultReceiver) -/

/-- The five intermediate artifact kinds a `NeededResultUnit` can hold. -/
inductive ArtifactKind where
  | deskewedImage
  | localizedTextLines
  | scaledColourImage
  | detectedQuads
  | recognizedTextLines
deriving DecidableEq, Repr

/-- `NeededResultUnit`: one slot per artifact kind, all starting at None. -/
structure NeededResultUnit (A : Type) where
  deskewed_image_unit : Option A
  localized_text_lines_unit : Option A
  scaled_colour_img_unit : Option A
  detected_quads_unit : Option A
  recognized_text_lines_unit : Option A
deriving DecidableEq, Repr

/-- The freshly constructed `NeededResultUnit()`. -/
def NeededResultUnit.empty (A : Type) : NeededResultUnit A :=
  { deskewed_image_unit := none, localized_text_lines_unit := none,
    scaled_colour_img_unit := none, detected_quads_unit := none,
    recognized_text_lines_unit := none }

/-- The receiver's `unit_groups` dictionary: frame hash id to bundle. -/
def UnitGroups (A : Type) : Type := String → Option (NeededResultUnit A)

/-- The empty `unit_groups` dictionary. -/
def UnitGroups.empty (A : Type) : UnitGroups A := fun _ => none

/-- Read one slot of a bundle by kind. -/
def slotOf {A : Type} (u : NeededResultUnit A) : ArtifactKind → Option A
  | ArtifactKind.deskewedImage => u.deskewed_image_unit
  | ArtifactKind.localizedTextLines => u.localized_text_lines_unit
  | ArtifactKind.scaledColourImage => u.scaled_colour_img_unit
  | ArtifactKind.detectedQuads => u.detected_quads_unit
  | ArtifactKind.recognizedTextLines => u.recognized_text_lines_unit

/-- Set one slot of a bundle by kind, leaving the other four unchanged
(`self.unit_groups[id].X_unit = result`). -/
def setSlot {A : Type} (u : NeededResultUnit A) : ArtifactKind → A → NeededResultUnit A
  | ArtifactKind.deskewedImage, a => { u with deskewed_image_unit := some a }
  | ArtifactKind.localizedTextLines, a => { u with localized_text_lines_unit := some a }
  | ArtifactKind.scaledColourImage, a => { u with scaled_colour_img_unit := some a }
  | ArtifactKind.detectedQuads, a => { u with detected_quads_unit := some a }
  | ArtifactKind.recognizedTextLines, a => { u with recognized_text_lines_unit := some a }

/-- Which `on_*_received` callbacks are guarded by
`if info.is_section_level_result:` (all but the scaled-colour one). -/
def requiresSectionLevel : ArtifactKind → Bool
  | ArtifactKind.scaledColourImage => false
  | _ => true

/-- The shared body of the five `on_*_received` callbacks: when the
callback's section-level guard passes, look up the bundle for the
artifact's `original_image_hash_id`, create it if absent, and store the
artifact in the slot for its kind; otherwise leave the store unchanged. -/
def record {A : Type} (groups : UnitGroups A) (k : ArtifactKind)
    (isSectionLevelResult : Bool) (hashId : String) (a : A) : UnitGroups A :=
  if requiresSectionLevel k && !isSectionLevelResult then groups
  else fun h =>
    if h = hashId then
      some (setSlot
        (match groups hashId with
         | some u => u
         | none => NeededResultUnit.empty A) k a)
    else groups h

/-- Modelled from the spec: `IdentityProcessor.find_portrait_zone` comes
from the external Dynamsoft SDK and is not in this repository. Per the
spec, deriving the portrait zone needs all required constituent artifacts;
when some have not yet arrived the call reports a non-OK code
(a correlation miss) instead of a zone. `derive` abstracts the successful
derivation. -/
def find_portrait_zone {A Q : Type} (derive : A → A → A → A → A → Q) :
    Option A → Option A → Option A → Option A → Option A → Int × Option Q
  | some s, some l, some r, some q, some d => (EC_OK, some (derive s l r q d))
  | _, _, _, _, _ => (-10000, none)

/-- `get_portrait_zone(hash_id)`: None when no bundle exists for the hash;
otherwise run the portrait-zone processor on the bundle's five slots and
return None unless it reports EC_OK. `fpz` abstracts the external
`IdentityProcessor.find_portrait_zone` call. -/
def get_portrait_zone {A Q : Type}
    (fpz : Option A → Option A → Option A → Option A → Option A → Int × Option Q)
    (groups : UnitGroups A) (hashId : String) : Option Q :=
  match groups hashId with
  | none => none
  | some units =>
    if (fpz units.scaled_colour_img_unit units.localized_text_lines_unit
        units.recognized_text_lines_unit units.detected_quads_unit
        units.deskewed_image_unit).1 ≠ EC_OK then none
    else (fpz units.scaled_colour_img_unit units.localized_text_lines_unit
        units.recognized_text_lines_unit units.detected_quads_unit
        units.deskewed_image_unit).2

theorem record_other_hash {A : Type} (groups : UnitGroups A) (k : ArtifactKind)
    (sl : Bool) (hashId h : String) (a : A) (hne : h ≠ hashId) :
    record groups k sl hashId a h = groups h := by
  unfold record
  by_cases hg : requiresSectionLevel k && !sl
  · rw [if_pos hg]
  · rw [if_neg hg]
    simp [hne]

/-- C5: correlation isolation. Recording an artifact under hash A never
changes what a query for a different hash B returns, and more generally the
query result for a hash depends only on the bundle stored for that hash:
two stores agreeing on hash B give the same query result for B. -/
theorem correlation_isolation {A Q : Type}
    (fpz : Option A → Option A → Option A → Option A → Option A → Int × Option Q)
    (groups groups2 : UnitGroups A) (k : ArtifactKind) (sl : Bool)
    (hashA hashB : String) (a : A) (hne : hashA ≠ hashB) :
    get_portrait_zone fpz (record groups k sl hashA a) hashB =
      get_portrait_zone fpz groups hashB ∧
    (groups hashB = groups2 hashB →
      get_portrait_zone fpz groups hashB = get_portrait_zone fpz groups2 hashB) := by
  constructor
  · unfold get_portrait_zone
    rw [record_other_hash groups k sl hashA hashB a (Ne.symm hne)]
  · intro hagree
    unfold get_portrait_zone
    rw [hagree]

/-- A store holding a single artifact recorded for hash "frame-a". -/
def groupsA : UnitGroups Nat :=
  record (UnitGroups.empty Nat) ArtifactKind.deskewedImage true "frame-a" 7

/-- Evaluation of C5's theorem: after recording an artifact under
"frame-a", a query for "frame-b" returns what it returned before the
record (nothing), for a processor that would happily derive a zone from
any bundle it is given. -/
theorem correlation_isolation_witness :
    get_portrait_zone (fun _ _ _ _ _ => (EC_OK, some 99))
      (record groupsA ArtifactKind.detectedQuads true "frame-a" 8) "frame-b" =
      get_portrait_zone (fun _ _ _ _ _ => (EC_OK, some 99)) groupsA "frame-b" ∧
    get_portrait_zone (fun _ _ _ _ _ => (EC_OK, some 99)) groupsA "frame-b" =
      (none : Option Nat) :=
  ⟨(correlation_isolation (fun _ _ _ _ _ => (EC_OK, some 99)) groupsA groupsA
      ArtifactKind.detectedQuads true "frame-a" "frame-b" 8 (by decide)).1,
    by decide⟩

/-- C6: querying the portrait zone returns None — not an error — whenever
the required constituent artifacts for the hash have not all arrived: both
when no bundle exists for the hash at all, and when a bundle exists but
some of the five artifact slots is still empty. -/
theorem query_missing_artifacts_none {A Q : Type} (derive : A → A → A → A → A → Q)
    (groups : UnitGroups A) (hashId : String)
    (h : groups hashId = none ∨
      ∃ u, groups hashId = some u ∧
        (u.deskewed_image_unit = none ∨ u.localized_text_lines_unit = none ∨
          u.scaled_colour_img_unit = none ∨ u.detected_quads_unit = none ∨
          u.recognized_text_lines_unit = none)) :
    get_portrait_zone (find_portrait_zone derive) groups hashId = none := by
  rcases h with h | ⟨u, hu, hmiss⟩
  · simp [get_portrait_zone, h]
  · simp only [get_portrait_zone, hu]
    have hbad : (find_portrait_zone derive u.scaled_colour_img_unit
        u.localized_text_lines_unit u.recognized_text_lines_unit
        u.detected_quads_unit u.deskewed_image_unit).1 = (-10000 : Int) := by
      cases hs : u.scaled_colour_img_unit <;>
        cases hl : u.localized_text_lines_unit <;>
          cases hr : u.recognized_text_lines_unit <;>
            cases hq : u.detected_quads_unit <;>
              cases hd : u.deskewed_image_unit <;>
                simp_all [find_portrait_zone]
    rw [if_pos (by rw [hbad]; decide)]

/-- Evaluation of C6's theorem: `groupsA` has a bundle for "frame-a" with
only the deskewed-image artifact, and a query for "frame-a" returns None;
a query for the unknown hash "frame-z" also returns None. -/
theorem query_missing_artifacts_none_witness :
    get_portrait_zone (find_portrait_zone (fun a b c d e => a + b + c + d + e))
      groupsA "frame-a" = none ∧
    get_portrait_zone (find_portrait_zone (fun a b c d e => a + b + c + d + e))
      groupsA "frame-z" = none :=
  ⟨query_missing_artifacts_none (fun a b c d e => a + b + c + d + e) groupsA
      "frame-a"
      (Or.inr ⟨{ deskewed_image_unit := some 7,
                 localized_text_lines_unit := none,
                 scaled_colour_img_unit := none, detected_quads_unit := none,
                 recognized_text_lines_unit := none },
        by decide, Or.inr (Or.inl rfl)⟩),
    query_missing_artifacts_none (fun a b c d e => a + b + c + d + e) groupsA
      "frame-z" (Or.inl (by decide))⟩

theorem slotOf_setSlot_same {A : Type} (u : NeededResultUnit A) (k : ArtifactKind)
    (a : A) : slotOf (setSlot u k a) k = some a := by
  cases k <;> rfl

theorem slotOf_setSlot_other {A : Type} (u : NeededResultUnit A)
    (k k2 : ArtifactKind) (a : A) (h : k2 ≠ k) :
    slotOf (setSlot u k a) k2 = slotOf u k2 := by
  cases k <;> cases k2 <;> simp_all [setSlot, slotOf]

/-- C8: recording an artifact merges it into the bundle for its hash rather
than replacing the bundle: after a record (whose section-level guard
passes) the bundle for the hash exists, its slot for the recorded kind
holds the new artifact, every other slot equals what the previous bundle
held (all None when the bundle is newly created), and bundles for every
other hash are untouched. -/
theorem record_merges_bundle {A : Type} (groups : UnitGroups A) (k : ArtifactKind)
    (sl : Bool) (hashId : String) (a : A)
    (hguard : requiresSectionLevel k = false ∨ sl = true) :
    (∃ u, record groups k sl hashId a hashId = some u ∧
      slotOf u k = some a ∧
      ∀ k2, k2 ≠ k → slotOf u k2 =
        slotOf (match groups hashId with
          | some u0 => u0
          | none => NeededResultUnit.empty A) k2) ∧
    ∀ h, h ≠ hashId → record groups k sl hashId a h = groups h := by
  have hg : (requiresSectionLevel k && !sl) = false := by
    rcases hguard with h | h <;> simp [h]
  constructor
  · refine ⟨setSlot
      (match groups hashId with
        | some u0 => u0
        | none => NeededResultUnit.empty A) k a, ?_, ?_, ?_⟩
    · unfold record
      rw [hg]
      simp
    · exact slotOf_setSlot_same _ k a
    · intro k2 hk2
      exact slotOf_setSlot_other _ k k2 a hk2
  · intro h hne
    exact record_other_hash groups k sl hashId h a hne

/-- Evaluation of C8's theorem: recording a detected-quads artifact for
"frame-a" keeps the previously recorded deskewed-image artifact of
"frame-a" and leaves other hashes untouched. -/
theorem record_merges_bundle_witness :
    (∀ h, h ≠ "frame-a" →
      record groupsA ArtifactKind.detectedQuads true "frame-a" 8 h = groupsA h) ∧
    record groupsA ArtifactKind.detectedQuads true "frame-a" 8 "frame-a" =
      some { deskewed_image_unit := some 7,
             localized_text_lines_unit := none,
             scaled_colour_img_unit := none, detected_quads_unit := some 8,
             recognized_text_lines_unit := none } :=
  ⟨(record_merges_bundle groupsA ArtifactKind.detectedQuads true "frame-a" 8
      (Or.inr rfl)).2,
    by decide⟩
